import Mathlib

/-
Shallow embedding of src/pulse_cli.py (GPU Pulse monitor).

Machine reals (Python floats) are modelled as rationals; Python ints as ℤ.
The value of math.sin(tick * 0.5) is modelled as an abstract rational
parameter s with the hypothesis -1 ≤ s ≤ 1 (the range of sin), and the two
random.randint draws as integer parameters jg ∈ [-2, 2] and jm ∈ [-5, 5],
the documented ranges of `random.randint(-2, 2)` and `random.randint(-5, 5)`.
-/

namespace Pulse

/-- Python `int()` truncation toward zero, on a rational. -/
def pyInt (q : ℚ) : ℤ := if 0 ≤ q then ⌊q⌋ else ⌈q⌉

/-- The per-device metrics record: both sources in pulse_cli.py return a dict
with exactly these seven keys, in this order. `gpu_util` and `mem_util` are
Python ints, the rest floats. -/
structure Snapshot where
  gpu_util : ℤ
  mem_util : ℤ
  mem_used : ℚ
  mem_total : ℚ
  power_watts : ℚ
  pcie_tx : ℚ
  pcie_rx : ℚ
deriving DecidableEq

/-- A Python value stored in a metrics dict: int or float. -/
inductive PyVal
  | int : ℤ → PyVal
  | float : ℚ → PyVal
deriving DecidableEq

/-- The dict literally built by both sources: key order as written in the
return statements of get_real_metrics and get_mock_metrics. -/
def Snapshot.toDict (m : Snapshot) : List (String × PyVal) :=
  [("gpu_util", PyVal.int m.gpu_util),
   ("mem_util", PyVal.int m.mem_util),
   ("mem_used", PyVal.float m.mem_used),
   ("mem_total", PyVal.float m.mem_total),
   ("power_watts", PyVal.float m.power_watts),
   ("pcie_tx", PyVal.float m.pcie_tx),
   ("pcie_rx", PyVal.float m.pcie_rx)]

/-- get_mock_metrics(index, tick) from pulse_cli.py. The device index is
unused by the source code, so it is not a parameter here; `s` stands for
math.sin(tick * 0.5), and jg, jm for the two random.randint draws.
load = (sin + 1) / 2. -/
def get_mock_metrics (s : ℚ) (jg jm : ℤ) : Snapshot :=
  let load : ℚ := (s + 1) / 2
  { gpu_util := pyInt (load * 95) + jg
    mem_util := pyInt (load * 80) + jm
    mem_used := 40 + load * 20
    mem_total := 80
    power_watts := 100 + load * 600
    pcie_tx := 2000 + load * 1000
    pcie_rx := 4000 + load * 2000 }

/-- util struct returned by nvmlDeviceGetUtilizationRates. -/
structure UtilRates where
  gpu : ℤ
  memory : ℤ
deriving DecidableEq

/-- mem_info struct returned by nvmlDeviceGetMemoryInfo (bytes). -/
structure MemoryInfo where
  used : ℤ
  total : ℤ
deriving DecidableEq

/-- A device handle, modelled by the outcome of each NVML query on it:
`none` means the query raises NVMLError. powerUsage is in milliwatts,
the PCIe throughputs in KB/s, as delivered by NVML before the divisions
in get_real_metrics. -/
structure Handle where
  utilizationRates : Option UtilRates
  memoryInfo : Option MemoryInfo
  powerUsage : Option ℤ
  pcieThroughputTx : Option ℤ
  pcieThroughputRx : Option ℤ
deriving DecidableEq

/-- get_real_metrics(handle) from pulse_cli.py: the five NVML queries run in
order inside a single try block; any NVMLError makes the whole function
return None. -/
def get_real_metrics (h : Handle) : Option Snapshot := do
  let util ← h.utilizationRates
  let mem_info ← h.memoryInfo
  let powerRaw ← h.powerUsage
  let txRaw ← h.pcieThroughputTx
  let rxRaw ← h.pcieThroughputRx
  pure
    { gpu_util := util.gpu
      mem_util := util.memory
      mem_used := (mem_info.used : ℚ) / 1024 ^ 3
      mem_total := (mem_info.total : ℚ) / 1024 ^ 3
      power_watts := (powerRaw : ℚ) / 1000
      pcie_tx := (txRaw : ℚ) / 1024
      pcie_rx := (rxRaw : ℚ) / 1024 }

/-- One observable publish action inside a cycle of monitor_loop:
a Prometheus gauge update for device i, the CLI print block for device i,
or the assignment LATEST_METRICS = current_batch. -/
inductive PubEvent
  | registry (i : ℕ)
  | terminal (i : ℕ)
  | dashboard
deriving DecidableEq

/-- The publish actions of the loop body for one device index i: when the
probe returned a snapshot, the six gauge .set calls come first, then the CLI
print block; when it returned None, nothing is published for the device. -/
def deviceEvents (probe : ℕ → Option Snapshot) (i : ℕ) : List PubEvent :=
  match probe i with
  | some _ => [PubEvent.registry i, PubEvent.terminal i]
  | none => []

/-- The publish actions of one iteration of the while-loop in monitor_loop,
in program order: the per-device actions for each index in
range(device_count), then the single LATEST_METRICS assignment after the
for-loop. -/
def cycleEvents (n : ℕ) (probe : ℕ → Option Snapshot) : List PubEvent :=
  (List.range n).flatMap (deviceEvents probe) ++ [PubEvent.dashboard]

/-- Modelled from the spec (claimed order, for comparison with cycleEvents):
the Sampler invokes the Publishers with the whole Cycle in the fixed order
Terminal first, then Registry, then Dashboard State. -/
def claimedCycleEvents (n : ℕ) (probe : ℕ → Option Snapshot) : List PubEvent :=
  ((List.range n).flatMap fun i =>
    match probe i with
    | some _ => [PubEvent.terminal i]
    | none => []) ++
  ((List.range n).flatMap fun i =>
    match probe i with
    | some _ => [PubEvent.registry i]
    | none => []) ++
  [PubEvent.dashboard]

/-- current_batch as assembled in monitor_loop: for each device index in
range(device_count), the snapshot is appended (tagged with its index) only
when the probe returned one; failed devices are skipped. -/
def collectBatch (n : ℕ) (probe : ℕ → Option Snapshot) : List (ℕ × Snapshot) :=
  (List.range n).filterMap fun i => (probe i).map fun m => (i, m)

/-- Prometheus label pair (gpu_index, gpu_name). -/
abbrev GaugeKey := ℕ × String

/-- The six gauge values the registry holds per label pair: GPU_UTIL,
MEM_UTIL, MEM_USED, POWER_WATTS, PCIE_TX, PCIE_RX. -/
structure RegEntry where
  gpu_util : ℚ
  mem_util : ℚ
  mem_used : ℚ
  power_watts : ℚ
  pcie_tx : ℚ
  pcie_rx : ℚ
deriving DecidableEq

/-- The Prometheus registry state: current gauge values per label pair,
`none` when that series was never set. -/
def Registry := GaugeKey → Option RegEntry

/-- The values the six .set(...) calls store for one snapshot (ints are
stored as gauge floats). -/
def entryOf (m : Snapshot) : RegEntry :=
  { gpu_util := (m.gpu_util : ℚ)
    mem_util := (m.mem_util : ℚ)
    mem_used := m.mem_used
    power_watts := m.power_watts
    pcie_tx := m.pcie_tx
    pcie_rx := m.pcie_rx }

/-- Setting all six gauges of one label pair. -/
def setGauges (reg : Registry) (k : GaugeKey) (e : RegEntry) : Registry :=
  fun k' => if k' = k then some e else reg k'

/-- A cycle's device sequence as the registry publisher sees it:
(index, name) labels with the snapshot. -/
abbrev Cycle := List (GaugeKey × Snapshot)

/-- The registry-publishing part of monitor_loop for one cycle: for each
device of the cycle in order, set its six gauges. -/
def publishRegistry (reg : Registry) (c : Cycle) : Registry :=
  c.foldl (fun r d => setGauges r d.1 (entryOf d.2)) reg

/-- The label pairs touched by a cycle. -/
def cycleKeys (c : Cycle) : List GaugeKey := c.map Prod.fst

/-- A snapshot sequence of the synthetic source over consecutive ticks:
svals lists the values of math.sin(tick * 0.5) at each tick, and jg, jm give
the random.randint draws of each position of the (seeded) random stream. -/
def mockSequence (jg jm : ℕ → ℤ) (svals : List ℚ) : List Snapshot :=
  svals.enum.map fun p => get_mock_metrics p.2 (jg p.1) (jm p.1)

/-! Helper lemmas (shared). -/

/-- For a non-negative rational below an integer bound, pyInt stays in
[0, b]. -/
theorem pyInt_nonneg_bounds {q : ℚ} {b : ℤ} (h0 : 0 ≤ q) (hb : q ≤ (b : ℚ)) :
    0 ≤ pyInt q ∧ pyInt q ≤ b := by
  rw [pyInt, if_pos h0]
  refine ⟨Int.floor_nonneg.mpr h0, ?_⟩
  have := Int.floor_le_floor hb
  rwa [Int.floor_intCast] at this

/-! Claim theorems. -/

/-- C1 counterexample: the synthetic source does not clamp its percentage
values into [0, 100]. At tick 9.5 (the 19th cycle) sin(tick * 0.5) =
sin(4.75) ≈ -0.9993, so load * 95 < 1 and int(load * 95) = 0; a jitter draw
of -2 then makes gpu_util = -2 < 0. -/
theorem mock_util_not_clamped :
    ¬ (∀ (s : ℚ) (jg jm : ℤ), -1 ≤ s → s ≤ 1 → -2 ≤ jg → jg ≤ 2 → -5 ≤ jm → jm ≤ 5 →
        0 ≤ (get_mock_metrics s jg jm).gpu_util ∧
        (get_mock_metrics s jg jm).gpu_util ≤ 100 ∧
        0 ≤ (get_mock_metrics s jg jm).mem_util ∧
        (get_mock_metrics s jg jm).mem_util ≤ 100) := by
  intro hclaim
  have h := hclaim (-9993/10000) (-2) 0 (by norm_num) (by norm_num) (by norm_num)
    (by norm_num) (by norm_num) (by norm_num)
  have hval : (get_mock_metrics (-9993/10000) (-2) 0).gpu_util = -2 := by
    rw [get_mock_metrics]
    show pyInt _ + _ = _
    rw [pyInt, if_pos (by norm_num)]
    norm_num
  rw [hval] at h
  exact absurd h.1 (by norm_num)

/-- C1 (amended): the synthetic utilization values are not clamped, but they
are bounded by the curve plus jitter: gpu_util ∈ [-2, 97] and
mem_util ∈ [-5, 85]; in particular both stay ≤ 100, while the lower bound 0
can be undershot by the jitter. -/
theorem mock_util_bounds (s : ℚ) (jg jm : ℤ)
    (hs₁ : -1 ≤ s) (hs₂ : s ≤ 1) (hg₁ : -2 ≤ jg) (hg₂ : jg ≤ 2)
    (hm₁ : -5 ≤ jm) (hm₂ : jm ≤ 5) :
    -2 ≤ (get_mock_metrics s jg jm).gpu_util ∧
    (get_mock_metrics s jg jm).gpu_util ≤ 97 ∧
    -5 ≤ (get_mock_metrics s jg jm).mem_util ∧
    (get_mock_metrics s jg jm).mem_util ≤ 85 := by
  have hl0 : (0 : ℚ) ≤ (s + 1) / 2 := by linarith
  have hl1 : (s + 1) / 2 ≤ 1 := by linarith
  have h95 := pyInt_nonneg_bounds (b := 95) (q := (s + 1) / 2 * 95)
    (by positivity) (by push_cast; linarith)
  have h80 := pyInt_nonneg_bounds (b := 80) (q := (s + 1) / 2 * 80)
    (by positivity) (by push_cast; linarith)
  simp only [get_mock_metrics]
  obtain ⟨h95a, h95b⟩ := h95
  obtain ⟨h80a, h80b⟩ := h80
  refine ⟨by omega, by omega, by omega, by omega⟩

/-- C1 witness for the amended theorem, at s = 0 (tick 0), jitter 2 and -5. -/
theorem mock_util_bounds_witness :
    -2 ≤ (get_mock_metrics 0 2 (-5)).gpu_util ∧
    (get_mock_metrics 0 2 (-5)).gpu_util ≤ 97 ∧
    -5 ≤ (get_mock_metrics 0 2 (-5)).mem_util ∧
    (get_mock_metrics 0 2 (-5)).mem_util ≤ 85 :=
  mock_util_bounds 0 2 (-5) (by norm_num) (by norm_num) (by norm_num) (by norm_num)
    (by norm_num) (by norm_num)

/-- C5: the synthetic source is a pure function of the tick's sine value and
the random draws — equal seed streams and equal tick sequences give equal
snapshot sequences — and every generated utilization differs from the
noiseless curve int(load * scale) by at most the jitter bound (2 for
gpu_util, 5 for mem_util). -/
theorem mock_deterministic_and_jitter_bound
    (jgs₁ jgs₂ jms₁ jms₂ : ℕ → ℤ) (sv₁ sv₂ : List ℚ) (s : ℚ) (jg jm : ℤ)
    (hseed₁ : jgs₁ = jgs₂) (hseed₂ : jms₁ = jms₂) (hticks : sv₁ = sv₂)
    (hg : |jg| ≤ 2) (hm : |jm| ≤ 5) :
    mockSequence jgs₁ jms₁ sv₁ = mockSequence jgs₂ jms₂ sv₂ ∧
    |(get_mock_metrics s jg jm).gpu_util - pyInt ((s + 1) / 2 * 95)| ≤ 2 ∧
    |(get_mock_metrics s jg jm).mem_util - pyInt ((s + 1) / 2 * 80)| ≤ 5 := by
  subst hseed₁ hseed₂ hticks
  refine ⟨rfl, ?_, ?_⟩ <;> simp only [get_mock_metrics] <;>
    rw [add_sub_cancel_left] <;> assumption

/-- C5 witness: concrete seed streams, tick list [0, 1/2], s = 0, jitters 1
and -3. -/
theorem mock_deterministic_and_jitter_bound_witness :
    mockSequence (fun _ => 1) (fun _ => -3) [0, 1/2] =
      mockSequence (fun _ => 1) (fun _ => -3) [0, 1/2] ∧
    |(get_mock_metrics 0 1 (-3)).gpu_util - pyInt ((0 + 1) / 2 * 95)| ≤ 2 ∧
    |(get_mock_metrics 0 1 (-3)).mem_util - pyInt ((0 + 1) / 2 * 80)| ≤ 5 :=
  mock_deterministic_and_jitter_bound (fun _ => 1) (fun _ => 1) (fun _ => -3)
    (fun _ => -3) [0, 1/2] [0, 1/2] 0 1 (-3) rfl rfl rfl (by norm_num) (by norm_num)

/-- C8: every synthetic snapshot satisfies the memory invariant:
0 ≤ memory_used ≤ memory_total, with memory_total = 80 and memory_used in
[40, 60]. -/
theorem mock_memory_invariant (s : ℚ) (jg jm : ℤ) (hs₁ : -1 ≤ s) (hs₂ : s ≤ 1) :
    0 ≤ (get_mock_metrics s jg jm).mem_used ∧
    (get_mock_metrics s jg jm).mem_used ≤ (get_mock_metrics s jg jm).mem_total ∧
    (get_mock_metrics s jg jm).mem_total = 80 ∧
    40 ≤ (get_mock_metrics s jg jm).mem_used ∧
    (get_mock_metrics s jg jm).mem_used ≤ 60 := by
  have hu : (get_mock_metrics s jg jm).mem_used = 40 + (s + 1) / 2 * 20 := rfl
  have ht : (get_mock_metrics s jg jm).mem_total = 80 := rfl
  rw [hu, ht]
  refine ⟨by linarith, by linarith, rfl, by linarith, by linarith⟩

/-- C8 witness at s = 0 (tick 0). -/
theorem mock_memory_invariant_witness :
    0 ≤ (get_mock_metrics 0 0 0).mem_used ∧
    (get_mock_metrics 0 0 0).mem_used ≤ (get_mock_metrics 0 0 0).mem_total ∧
    (get_mock_metrics 0 0 0).mem_total = 80 ∧
    40 ≤ (get_mock_metrics 0 0 0).mem_used ∧
    (get_mock_metrics 0 0 0).mem_used ≤ 60 :=
  mock_memory_invariant 0 0 0 (by norm_num) (by norm_num)

/-- A handle whose utilization, memory and power queries all succeed but
whose PCIe TX query raises NVMLError. -/
def txFailHandle : Handle :=
  { utilizationRates := some ⟨50, 40⟩
    memoryInfo := some ⟨42949672960, 85899345920⟩
    powerUsage := some 350000
    pcieThroughputTx := none
    pcieThroughputRx := some 4096000 }

/-- C2 counterexample: a failing PCIe TX read alone discards the whole
snapshot — get_real_metrics never returns a best-effort snapshot with
defaults, because all five queries sit in one try/except returning None. -/
theorem real_no_best_effort :
    ¬ (∀ h : Handle,
        h.utilizationRates.isSome = true → h.memoryInfo.isSome = true →
        h.powerUsage.isSome = true → (get_real_metrics h).isSome = true) := by
  intro hclaim
  have h := hclaim txFailHandle rfl rfl rfl
  simp [get_real_metrics, txFailHandle] at h

/-- C2 (amended): get_real_metrics is all-or-nothing — it returns a snapshot
exactly when all five NVML queries (utilization rates, memory info, power,
PCIe TX, PCIe RX) succeed; any single failure, including a PCIe one,
invalidates the device's snapshot for that cycle, and there is no
power_limit default. -/
theorem real_all_or_nothing (h : Handle) :
    (get_real_metrics h).isSome = true ↔
      h.utilizationRates.isSome = true ∧ h.memoryInfo.isSome = true ∧
      h.powerUsage.isSome = true ∧ h.pcieThroughputTx.isSome = true ∧
      h.pcieThroughputRx.isSome = true := by
  obtain ⟨u, m, p, t, r⟩ := h
  cases u <;> cases m <;> cases p <;> cases t <;> cases r <;>
    simp [get_real_metrics]

/-- A handle on which every NVML query succeeds: utilization 50/40 %, 1 GiB
used of 2 GiB, 350000 mW, 2048 and 4096 KB/s of PCIe throughput. -/
def okHandle : Handle :=
  { utilizationRates := some ⟨50, 40⟩
    memoryInfo := some ⟨1073741824, 2147483648⟩
    powerUsage := some 350000
    pcieThroughputTx := some 2048
    pcieThroughputRx := some 4096 }

/-- C10: every snapshot either source can return carries exactly the seven
keys gpu_util, mem_util, mem_used, mem_total, power_watts, pcie_tx, pcie_rx,
in that order; no clock fields and no power_limit field ever appear. -/
theorem snapshot_fields (s : ℚ) (jg jm : ℤ) (h : Handle) (m : Snapshot)
    (_hreal : get_real_metrics h = some m) :
    (get_mock_metrics s jg jm).toDict.map Prod.fst =
      ["gpu_util", "mem_util", "mem_used", "mem_total", "power_watts",
       "pcie_tx", "pcie_rx"] ∧
    m.toDict.map Prod.fst =
      ["gpu_util", "mem_util", "mem_used", "mem_total", "power_watts",
       "pcie_tx", "pcie_rx"] ∧
    "graphics_clock_mhz" ∉ (get_mock_metrics s jg jm).toDict.map Prod.fst ∧
    "sm_clock_mhz" ∉ (get_mock_metrics s jg jm).toDict.map Prod.fst ∧
    "power_limit_watts" ∉ (get_mock_metrics s jg jm).toDict.map Prod.fst ∧
    "graphics_clock_mhz" ∉ m.toDict.map Prod.fst ∧
    "sm_clock_mhz" ∉ m.toDict.map Prod.fst ∧
    "power_limit_watts" ∉ m.toDict.map Prod.fst := by
  have hm1 : (get_mock_metrics s jg jm).toDict.map Prod.fst =
      ["gpu_util", "mem_util", "mem_used", "mem_total", "power_watts",
       "pcie_tx", "pcie_rx"] := rfl
  have hm2 : m.toDict.map Prod.fst =
      ["gpu_util", "mem_util", "mem_used", "mem_total", "power_watts",
       "pcie_tx", "pcie_rx"] := rfl
  refine ⟨hm1, hm2, ?_, ?_, ?_, ?_, ?_, ?_⟩ <;> simp only [hm1, hm2] <;> decide

/-- C10 witness: the hardware source succeeds on okHandle with the snapshot
(50, 40, 1, 2, 350, 2, 4). -/
theorem snapshot_fields_witness :
    (get_mock_metrics 0 0 0).toDict.map Prod.fst =
      ["gpu_util", "mem_util", "mem_used", "mem_total", "power_watts",
       "pcie_tx", "pcie_rx"] ∧
    (Snapshot.mk 50 40 1 2 350 2 4).toDict.map Prod.fst =
      ["gpu_util", "mem_util", "mem_used", "mem_total", "power_watts",
       "pcie_tx", "pcie_rx"] ∧
    "graphics_clock_mhz" ∉ (get_mock_metrics 0 0 0).toDict.map Prod.fst ∧
    "sm_clock_mhz" ∉ (get_mock_metrics 0 0 0).toDict.map Prod.fst ∧
    "power_limit_watts" ∉ (get_mock_metrics 0 0 0).toDict.map Prod.fst ∧
    "graphics_clock_mhz" ∉ (Snapshot.mk 50 40 1 2 350 2 4).toDict.map Prod.fst ∧
    "sm_clock_mhz" ∉ (Snapshot.mk 50 40 1 2 350 2 4).toDict.map Prod.fst ∧
    "power_limit_watts" ∉ (Snapshot.mk 50 40 1 2 350 2 4).toDict.map Prod.fst :=
  snapshot_fields 0 0 0 okHandle (Snapshot.mk 50 40 1 2 350 2 4) (by
    rw [get_real_metrics]
    norm_num [okHandle, Option.bind])

/-- The snapshot used in concrete cycles below: the synthetic one at tick 0
with zero jitter. -/
def mockSnap : Snapshot := get_mock_metrics 0 0 0

/-- Splitting a flatMap at a member of the underlying list. -/
theorem flatMap_split {α β : Type} (l : List α) (f : α → List β) (a : α)
    (ha : a ∈ l) : ∃ l₁ l₂, l.flatMap f = l₁ ++ f a ++ l₂ := by
  induction l with
  | nil => cases ha
  | cons b t ih =>
    rcases List.mem_cons.mp ha with rfl | hmem
    · exact ⟨[], t.flatMap f, by simp⟩
    · obtain ⟨l₁, l₂, he⟩ := ih hmem
      exact ⟨f b ++ l₁, l₂, by simp [he]⟩

/-- The dashboard assignment never occurs among the per-device actions. -/
theorem dashboard_not_in_device_events (n : ℕ) (probe : ℕ → Option Snapshot) :
    PubEvent.dashboard ∉ (List.range n).flatMap (deviceEvents probe) := by
  intro hmem
  rw [List.mem_flatMap] at hmem
  obtain ⟨i, -, hin⟩ := hmem
  rw [deviceEvents] at hin
  cases hpi : probe i <;> rw [hpi] at hin <;> simp at hin

/-- C3 counterexample: with one device whose probe succeeds, the actual
publish order of monitor_loop (gauge updates, then terminal output, then
dashboard state) differs from the claimed order (terminal first, then
registry, then dashboard state). -/
theorem publish_order_not_terminal_first :
    cycleEvents 1 (fun _ => some mockSnap) ≠
      claimedCycleEvents 1 (fun _ => some mockSnap) := by
  decide

/-- C3 (amended): in every cycle, for each device whose probe succeeded, the
Registry gauge updates immediately precede that device's Terminal output
(Registry before Terminal, per device, not Terminal first for the whole
cycle), and the Dashboard State publish occurs exactly once, as the last
publish action of the cycle, with the batch assembled from the same cycle's
probes. -/
theorem publish_order (n : ℕ) (probe : ℕ → Option Snapshot) (i : ℕ)
    (m : Snapshot) (hi : i < n) (hp : probe i = some m) :
    (∃ l₁ l₂, cycleEvents n probe =
        l₁ ++ PubEvent.registry i :: PubEvent.terminal i :: l₂) ∧
    (cycleEvents n probe).getLast? = some PubEvent.dashboard ∧
    (cycleEvents n probe).count PubEvent.dashboard = 1 := by
  refine ⟨?_, ?_, ?_⟩
  · obtain ⟨l₁, l₂, he⟩ := flatMap_split (List.range n) (deviceEvents probe) i
      (List.mem_range.mpr hi)
    refine ⟨l₁, l₂ ++ [PubEvent.dashboard], ?_⟩
    rw [cycleEvents, he, deviceEvents, hp]
    simp
  · rw [cycleEvents, List.getLast?_concat]
  · rw [cycleEvents, List.count_append]
    rw [List.count_eq_zero.mpr (dashboard_not_in_device_events n probe)]
    rfl

/-- C3 witness for the amended theorem: one device, successful probe. -/
theorem publish_order_witness :
    (∃ l₁ l₂, cycleEvents 1 (fun _ => some mockSnap) =
        l₁ ++ PubEvent.registry 0 :: PubEvent.terminal 0 :: l₂) ∧
    (cycleEvents 1 (fun _ => some mockSnap)).getLast? = some PubEvent.dashboard ∧
    (cycleEvents 1 (fun _ => some mockSnap)).count PubEvent.dashboard = 1 :=
  publish_order 1 (fun _ => some mockSnap) 0 mockSnap (by norm_num) rfl

/-- C4: a device whose probe failed is entirely absent from the cycle's
batch — no entry of current_batch carries its index — while every device
whose probe succeeded is still collected with its snapshot. -/
theorem failed_device_omitted (n : ℕ) (probe : ℕ → Option Snapshot) (i : ℕ)
    (hi : i < n) (hfail : probe i = none) :
    (∀ p ∈ collectBatch n probe, p.1 ≠ i) ∧
    (∀ j, j < n → ∀ m, probe j = some m → (j, m) ∈ collectBatch n probe) := by
  constructor
  · intro p hp
    rw [collectBatch, List.mem_filterMap] at hp
    obtain ⟨a, -, hmap⟩ := hp
    cases hpa : probe a with
    | none => rw [hpa] at hmap; simp at hmap
    | some m =>
      rw [hpa, Option.map_some'] at hmap
      injection hmap with hmap
      subst hmap
      show a ≠ i
      intro hpi
      subst hpi
      rw [hfail] at hpa
      exact Option.noConfusion hpa
  · intro j hj m hm
    rw [collectBatch, List.mem_filterMap]
    exact ⟨j, List.mem_range.mpr hj, by rw [hm]; rfl⟩

/-- C4 witness: two devices, device 0 fails, device 1 succeeds. -/
theorem failed_device_omitted_witness :
    (∀ p ∈ collectBatch 2 (fun i => if i = 0 then none else some mockSnap),
      p.1 ≠ 0) ∧
    (∀ j, j < 2 → ∀ m,
      (fun i => if i = 0 then none else some mockSnap) j = some m →
      (j, m) ∈ collectBatch 2 (fun i => if i = 0 then none else some mockSnap)) :=
  failed_device_omitted 2 (fun i => if i = 0 then none else some mockSnap) 0
    (by norm_num) rfl

/-- Publishing a cycle leaves every label pair outside the cycle untouched. -/
theorem publish_skips (reg : Registry) (c : Cycle) (k : GaugeKey)
    (hk : k ∉ cycleKeys c) : publishRegistry reg c k = reg k := by
  induction c generalizing reg with
  | nil => rfl
  | cons d t ih =>
    rw [cycleKeys, List.map_cons, List.mem_cons] at hk
    push_neg at hk
    obtain ⟨hk1, hk2⟩ := hk
    rw [publishRegistry, List.foldl_cons]
    rw [show List.foldl (fun r d => setGauges r d.1 (entryOf d.2))
        (setGauges reg d.1 (entryOf d.2)) t =
        publishRegistry (setGauges reg d.1 (entryOf d.2)) t from rfl]
    rw [ih _ hk2]
    simp [setGauges, hk1]

/-- The value a publish leaves at a label pair of the cycle does not depend
on the registry state before the publish. -/
theorem publish_agrees (c : Cycle) (k : GaugeKey) (hk : k ∈ cycleKeys c)
    (r r' : Registry) : publishRegistry r c k = publishRegistry r' c k := by
  induction c generalizing r r' with
  | nil => cases hk
  | cons d t ih =>
    rw [show publishRegistry r (d :: t) =
        publishRegistry (setGauges r d.1 (entryOf d.2)) t from rfl]
    rw [show publishRegistry r' (d :: t) =
        publishRegistry (setGauges r' d.1 (entryOf d.2)) t from rfl]
    by_cases hkt : k ∈ cycleKeys t
    · exact ih hkt _ _
    · rw [publish_skips _ t k hkt, publish_skips _ t k hkt]
      rw [cycleKeys, List.map_cons, List.mem_cons] at hk
      have hkd : k = d.1 := hk.resolve_right hkt
      simp [setGauges, hkd]

/-- C6 (frame effect): a registry publish for a cycle changes only the
gauges of label pairs present in that cycle; any device absent from the
cycle keeps all six of its previously published gauge values — stale series
are never deleted. -/
theorem registry_publish_frame (reg : Registry) (c : Cycle) (k : GaugeKey)
    (hk : k ∉ cycleKeys c) : publishRegistry reg c k = reg k :=
  publish_skips reg c k hk

/-- C6 witness: a registry holding values for label (2, "A") after a cycle
that contains only device (0, "NVIDIA H100 (Simulated)"). -/
theorem registry_publish_frame_witness :
    publishRegistry
        (fun k => if k = (2, "A") then some (entryOf mockSnap) else none)
        [((0, "NVIDIA H100 (Simulated)"), mockSnap)] (2, "A") =
      (fun k : GaugeKey =>
        if k = (2, "A") then some (entryOf mockSnap) else none) (2, "A") :=
  registry_publish_frame
    (fun k => if k = (2, "A") then some (entryOf mockSnap) else none)
    [((0, "NVIDIA H100 (Simulated)"), mockSnap)] (2, "A") (by decide)

/-- C7 (idempotence): publishing the same cycle to the registry twice in
succession leaves exactly the gauge values of publishing it once, for every
cycle and every starting registry state. -/
theorem registry_publish_idempotent (reg : Registry) (c : Cycle) :
    publishRegistry (publishRegistry reg c) c = publishRegistry reg c := by
  funext k
  by_cases hk : k ∈ cycleKeys c
  · exact publish_agrees c k hk _ _
  · rw [publish_skips _ c k hk]

end Pulse
